import Mathlib

/-!
# FilamentRenderer: scene bookkeeping, frame sequencing and resource requests

A shallow embedding of `Open3D/Visualization/Rendering/Filament/FilamentRenderer.cpp`.

* The renderer object is a record of its data members.
* Every member function is a pure function from the state before the call to an
  `Outcome`: the returned value, the state after the call, and the list of calls
  made on collaborating objects (scenes, the low-level renderer, the resource
  manager, the material modifier, the request callback, the logger), in order.
* What a collaborator answers (the handle produced by `SceneHandle::Next()`, the
  scene object built by `std::make_unique`, the result of
  `renderer_->beginFrame`, the resource manager) is an explicit argument.
-/

namespace open3d.visualization

/-! ## Handles, requests and collaborating objects -/

/-- Modelled from the spec: the handle types are declared outside this file; the spec
describes each as an opaque generated identifier, with an empty/invalid value. The model
is a bare identifier; the default-constructed handle (`{}` in the source) is `kBad` and
the boolean test `if (handle)` is `isValid`. -/
structure REHandle where
  id : Nat
deriving DecidableEq, Repr

/-- The default-constructed (empty/invalid) handle. -/
def REHandle.kBad : REHandle := ⟨0⟩

/-- The boolean conversion used by `if (instanceId)`. -/
def REHandle.isValid (h : REHandle) : Bool := h.id != 0

abbrev SceneHandle := REHandle
abbrev MaterialHandle := REHandle
abbrev MaterialInstanceHandle := REHandle
abbrev TextureHandle := REHandle

/-- A scene object. The scene is a black box for the renderer: only its identity (which
object it is) matters here. -/
structure FilamentScene where
  obj : Nat
deriving DecidableEq, Repr

/-- A material instance object owned by the resource manager (identity only). -/
structure MaterialInstance where
  obj : Nat
deriving DecidableEq, Repr

/-- Modelled from the spec: `ResourceLoadRequest` is declared outside this file; the spec
says it carries a file path and an error callback invoked with
(request, numeric error code, message). The callback is not stored in the model: invoking
it is recorded as a `Call.errorCallback`. -/
structure ResourceLoadRequest where
  path : String
deriving DecidableEq, Repr

/-- A call made by the renderer on a collaborating object. -/
inductive Call where
  /-- Source: `new FilamentScene(engine_, resourceManager_)` produced this object. -/
  | sceneNew (scene : FilamentScene)
  /-- An owning pointer released this scene object. -/
  | sceneDelete (scene : FilamentScene)
  /-- Source: `scene->Draw(*renderer_)`. -/
  | sceneDraw (scene : FilamentScene)
  /-- Source: `renderer_->beginFrame(swapChain_)`. -/
  | rendererBeginFrame
  /-- Source: `renderer_->endFrame()`. -/
  | rendererEndFrame
  /-- Source: `resourceManager_.CreateMaterial(request)`. -/
  | rmCreateMaterial (request : ResourceLoadRequest)
  /-- Source: `resourceManager_.CreateMaterialInstance(id)`. -/
  | rmCreateMaterialInstance (id : MaterialHandle)
  /-- Source: `resourceManager_.GetMaterialInstance(id)`. -/
  | rmGetMaterialInstance (id : MaterialInstanceHandle)
  /-- Source: `resourceManager_.CreateTexture(path)`. -/
  | rmCreateTexture (path : String)
  /-- Source: `materialsModifier_->Reset()`. -/
  | modifierReset
  /-- Source: `materialsModifier_->InitWithMaterialInstance(materialInstance, id)`. -/
  | modifierInit (materialInstance : Option MaterialInstance) (id : MaterialInstanceHandle)
  /-- Source: `request.errorCallback(request, code, message)`, with the arguments as written at
  the call site. -/
  | errorCallback (request : ResourceLoadRequest) (code : Int) (message : String)
  /-- Source: `utility::LogError(format, id)`. -/
  | logError (format : String) (id : REHandle)
deriving DecidableEq, Repr

/-- Modelled from the spec: `FilamentMaterialModifier` is declared outside this file. The
spec describes it as a single reusable helper that is reset on each use and then
initialised with a material instance; the model keeps exactly that: the instance and the
handle it was last initialised with, and nothing after a reset. -/
structure FilamentMaterialModifier where
  materialInstance_ : Option MaterialInstance
  currentHandle_ : MaterialInstanceHandle
deriving DecidableEq, Repr

/-- The helper after `Reset()`: it holds no instance and the invalid handle. -/
def FilamentMaterialModifier.Reset (_m : FilamentMaterialModifier) :
    FilamentMaterialModifier :=
  { materialInstance_ := none, currentHandle_ := REHandle.kBad }

/-- The helper after `InitWithMaterialInstance(aMaterialInstance, id)`. -/
def FilamentMaterialModifier.InitWithMaterialInstance (_m : FilamentMaterialModifier)
    (aMaterialInstance : Option MaterialInstance) (id : MaterialInstanceHandle) :
    FilamentMaterialModifier :=
  { materialInstance_ := aMaterialInstance, currentHandle_ := id }

/-- The interface of the externally owned resource manager, over its own state `σ`.
`GetMaterialInstance` returns a weak reference: `none` is an expired one. -/
structure FilamentResourceManager (σ : Type) where
  CreateMaterial : ResourceLoadRequest → σ → MaterialHandle × σ
  CreateMaterialInstance : MaterialHandle → σ → MaterialInstanceHandle × σ
  GetMaterialInstance : MaterialInstanceHandle → σ → Option MaterialInstance
  CreateTexture : String → σ → TextureHandle × σ

/-! ## The scene collection `scenes_` -/

/-- Entries of the handle-to-scene mapping, in iteration order. -/
abbrev SceneEntries := List (SceneHandle × FilamentScene)

/-- Lookup by key: `find(id)`; `none` is `end()`. -/
def SceneEntries.find : SceneEntries → SceneHandle → Option FilamentScene
  | [], _ => none
  | (k, v) :: rest, id => if k = id then some v else SceneEntries.find rest id

/-- Removal by key: `erase(id)`. -/
def SceneEntries.erase (l : SceneEntries) (id : SceneHandle) : SceneEntries :=
  l.filter (fun p => decide (p.1 ≠ id))

/-- Store under key: `m[k] = v`. An existing entry keeps its place and gets the new value,
a new key gets a new entry. -/
def SceneEntries.assign : SceneEntries → SceneHandle → FilamentScene → SceneEntries
  | [], k, v => [(k, v)]
  | (k0, v0) :: rest, k, v =>
    if k0 = k then (k, v) :: rest else (k0, v0) :: SceneEntries.assign rest k v

/-- The mapping `scenes_`: entries with pairwise different keys. The order of the entries
is the order in which a range-for visits them. -/
structure SceneMap where
  entries : SceneEntries
  nodupKeys : (entries.map Prod.fst).Nodup

/-- The empty mapping. -/
def SceneMap.empty : SceneMap := ⟨[], List.nodup_nil⟩

/-- Lookup `scenes_.find(id)`. -/
def SceneMap.find (m : SceneMap) (id : SceneHandle) : Option FilamentScene :=
  SceneEntries.find m.entries id

/-- Removal `scenes_.erase(id)`. -/
def SceneMap.erase (m : SceneMap) (id : SceneHandle) : SceneMap :=
  ⟨SceneEntries.erase m.entries id,
    List.Nodup.sublist (List.Sublist.map _ (List.filter_sublist m.entries)) m.nodupKeys⟩

/-- Store `scenes_[k] = v`. -/
def SceneMap.assign (m : SceneMap) (k : SceneHandle) (v : FilamentScene) : SceneMap :=
  ⟨SceneEntries.assign m.entries k v, by
    have key : ∀ l : SceneEntries, (l.map Prod.fst).Nodup →
        ((SceneEntries.assign l k v).map Prod.fst).Nodup ∧
        ∀ x, x ∈ (SceneEntries.assign l k v).map Prod.fst → x = k ∨ x ∈ l.map Prod.fst := by
      intro l
      induction l with
      | nil => intro _; simp [SceneEntries.assign]
      | cons p rest ih =>
        obtain ⟨k0, v0⟩ := p
        intro h
        rw [List.map_cons, List.nodup_cons] at h
        by_cases hk : k0 = k
        · subst hk
          simpa [SceneEntries.assign] using h
        · obtain ⟨ih1, ih2⟩ := ih h.2
          simp only [SceneEntries.assign, if_neg hk, List.map_cons, List.nodup_cons,
            List.mem_cons]
          refine ⟨⟨?_, ih1⟩, ?_⟩
          · intro hmem
            rcases ih2 _ hmem with h1 | h1
            · exact hk h1
            · exact h.1 h1
          · intro x hx
            rcases hx with hx | hx
            · exact Or.inr (Or.inl hx)
            · rcases ih2 x hx with h1 | h1
              · exact Or.inl h1
              · exact Or.inr (Or.inr h1)
    exact (key m.entries m.nodupKeys).1⟩

/-- The scenes of the mapping in iteration order. -/
def SceneMap.values (m : SceneMap) : List FilamentScene := m.entries.map Prod.snd

/-- The keys of the mapping in iteration order. -/
def SceneMap.keys (m : SceneMap) : List SceneHandle := m.entries.map Prod.fst

/-! ## The renderer -/

/-- The data members of `FilamentRenderer` that its member functions read or write.
`engine_`, `renderer_`, `swapChain_` and `resourceManager_` refer to collaborating
objects and never change after construction. -/
structure FilamentRenderer where
  scenes_ : SceneMap
  guiScene_ : Option FilamentScene
  materialsModifier_ : FilamentMaterialModifier
  frameStarted_ : Bool

/-- What a member function call produces. -/
structure Outcome (α : Type) where
  ret : α
  state : FilamentRenderer
  calls : List Call

/-- What a member function that talks to the resource manager produces. -/
structure RMOutcome (α σ : Type) where
  ret : α
  state : FilamentRenderer
  rmState : σ
  calls : List Call

/-- Modelled from the spec: the constructor body sets up the swap chain, the low-level
renderer and the material modifier; `scenes_` and `guiScene_` start empty. The initial
value of `frameStarted_` comes from the class declaration, which is outside this file;
the spec says that without a prior BeginFrame no frame is active. -/
def FilamentRenderer.new : FilamentRenderer :=
  { scenes_ := SceneMap.empty
    guiScene_ := none
    materialsModifier_ := { materialInstance_ := none, currentHandle_ := REHandle.kBad }
    frameStarted_ := false }

/-- Source: `CreateScene()`. `handle` is what `SceneHandle::Next()` returns and `scene` the
object built by `std::make_unique<FilamentScene>(engine_, resourceManager_)`. A scene already
stored under `handle` is released by the assignment. -/
def FilamentRenderer.CreateScene (handle : SceneHandle) (scene : FilamentScene)
    (r : FilamentRenderer) : Outcome SceneHandle :=
  { ret := handle
    state := { r with scenes_ := r.scenes_.assign handle scene }
    calls := Call.sceneNew scene ::
      (match r.scenes_.find handle with
       | some old => [Call.sceneDelete old]
       | none => []) }

/-- Source: `GetScene(id) const`: the stored scene, or `none` for `nullptr`. -/
def FilamentRenderer.GetScene (id : SceneHandle) (r : FilamentRenderer) :
    Option FilamentScene :=
  match r.scenes_.find id with
  | some found => some found
  | none => none

/-- Source: `DestroyScene(id)`. -/
def FilamentRenderer.DestroyScene (id : SceneHandle) (r : FilamentRenderer) : Outcome Unit :=
  { ret := ()
    state := { r with scenes_ := r.scenes_.erase id }
    calls := match r.scenes_.find id with
      | some old => [Call.sceneDelete old]
      | none => [] }

/-- Source: `BeginFrame()`. `began` is what `renderer_->beginFrame(swapChain_)` returns. -/
def FilamentRenderer.BeginFrame (began : Bool) (r : FilamentRenderer) : Outcome Unit :=
  { ret := ()
    state := { r with frameStarted_ := began }
    calls := [Call.rendererBeginFrame] }

/-- Source: `Draw()`. -/
def FilamentRenderer.Draw (r : FilamentRenderer) : Outcome Unit :=
  if r.frameStarted_ then
    { ret := ()
      state := r
      calls := r.scenes_.entries.map (fun pair => Call.sceneDraw pair.2) ++
        (match r.guiScene_ with
         | some gui => [Call.sceneDraw gui]
         | none => []) }
  else
    { ret := (), state := r, calls := [] }

/-- Source: `EndFrame()`. -/
def FilamentRenderer.EndFrame (r : FilamentRenderer) : Outcome Unit :=
  if r.frameStarted_ then
    { ret := (), state := r, calls := [Call.rendererEndFrame] }
  else
    { ret := (), state := r, calls := [] }

/-- Source: `AddMaterial(request)`. -/
def FilamentRenderer.AddMaterial {σ : Type} (rm : FilamentResourceManager σ)
    (request : ResourceLoadRequest) (s : σ) (r : FilamentRenderer) :
    RMOutcome MaterialHandle σ :=
  let created := rm.CreateMaterial request s
  { ret := created.1, state := r, rmState := created.2,
    calls := [Call.rmCreateMaterial request] }

/-- Source: `ModifyMaterial(const MaterialHandle&)`. The returned reference is to
`materialsModifier_` of the state after the call. -/
def FilamentRenderer.ModifyMaterial {σ : Type} (rm : FilamentResourceManager σ)
    (id : MaterialHandle) (s : σ) (r : FilamentRenderer) :
    RMOutcome FilamentMaterialModifier σ :=
  let modifier := r.materialsModifier_.Reset
  let created := rm.CreateMaterialInstance id s
  let instanceId := created.1
  if instanceId.isValid then
    let wMaterialInstance := rm.GetMaterialInstance instanceId created.2
    let modifier1 := modifier.InitWithMaterialInstance wMaterialInstance instanceId
    { ret := modifier1
      state := { r with materialsModifier_ := modifier1 }
      rmState := created.2
      calls := [Call.modifierReset, Call.rmCreateMaterialInstance id,
        Call.rmGetMaterialInstance instanceId,
        Call.modifierInit wMaterialInstance instanceId] }
  else
    { ret := modifier
      state := { r with materialsModifier_ := modifier }
      rmState := created.2
      calls := [Call.modifierReset, Call.rmCreateMaterialInstance id,
        Call.logError "Failed to create material instance for material handle \x7b\x7d." id] }

/-- Source: `ModifyMaterial(const MaterialInstanceHandle&)`. -/
def FilamentRenderer.ModifyMaterialInstance {σ : Type} (rm : FilamentResourceManager σ)
    (id : MaterialInstanceHandle) (s : σ) (r : FilamentRenderer) :
    RMOutcome FilamentMaterialModifier σ :=
  let modifier := r.materialsModifier_.Reset
  let wMaterialInstance := rm.GetMaterialInstance id s
  if wMaterialInstance.isSome then
    let modifier1 := modifier.InitWithMaterialInstance wMaterialInstance id
    { ret := modifier1
      state := { r with materialsModifier_ := modifier1 }
      rmState := s
      calls := [Call.modifierReset, Call.rmGetMaterialInstance id,
        Call.modifierInit wMaterialInstance id] }
  else
    { ret := modifier
      state := { r with materialsModifier_ := modifier }
      rmState := s
      calls := [Call.modifierReset, Call.rmGetMaterialInstance id,
        Call.logError "Failed to modify material instance: unknown instance handle \x7b\x7d." id] }

/-- Source: `request.path.data()` as the callee reads it. The argument handed to
`CreateTexture` is a pointer to the characters of the path, read as a C string: the
characters before the first NUL character. -/
def ResourceLoadRequest.pathData (request : ResourceLoadRequest) : String :=
  String.mk (request.path.data.takeWhile (fun c => c != Char.ofNat 0))

/-- Source: `AddTexture(request)`. -/
def FilamentRenderer.AddTexture {σ : Type} (rm : FilamentResourceManager σ)
    (request : ResourceLoadRequest) (s : σ) (r : FilamentRenderer) :
    RMOutcome TextureHandle σ :=
  if request.path.isEmpty then
    { ret := REHandle.kBad, state := r, rmState := s,
      calls := [Call.errorCallback request (-1) "Texture can be loaded only from file"] }
  else
    let created := rm.CreateTexture request.pathData s
    { ret := created.1, state := r, rmState := created.2,
      calls := [Call.rmCreateTexture request.pathData] }

/-- Source: `RemoveTexture(id)`: the body is empty. -/
def FilamentRenderer.RemoveTexture (_id : TextureHandle) (r : FilamentRenderer) :
    Outcome Unit :=
  { ret := (), state := r, calls := [] }

/-- Source: `ConvertToGuiScene(id)`. Moving the found scene into `guiScene_` releases the scene
held there before. -/
def FilamentRenderer.ConvertToGuiScene (id : SceneHandle) (r : FilamentRenderer) :
    Outcome Unit :=
  match r.scenes_.find id with
  | some found =>
    { ret := ()
      state := { r with guiScene_ := some found, scenes_ := r.scenes_.erase id }
      calls := match r.guiScene_ with
        | some old => [Call.sceneDelete old]
        | none => [] }
  | none => { ret := (), state := r, calls := [] }

/-! ## Call sequences -/

/-- One call of the scene and frame interface, together with what the collaborators
answered during it. -/
inductive Op where
  | createScene (handle : SceneHandle) (scene : FilamentScene)
  | getScene (id : SceneHandle)
  | destroyScene (id : SceneHandle)
  | convertToGuiScene (id : SceneHandle)
  | beginFrame (began : Bool)
  | draw
  | endFrame
deriving DecidableEq, Repr

/-- The renderer after one call. `GetScene` is a `const` member function. -/
def FilamentRenderer.step (r : FilamentRenderer) : Op → FilamentRenderer
  | Op.createScene handle scene => (r.CreateScene handle scene).state
  | Op.getScene _ => r
  | Op.destroyScene id => (r.DestroyScene id).state
  | Op.convertToGuiScene id => (r.ConvertToGuiScene id).state
  | Op.beginFrame began => (r.BeginFrame began).state
  | Op.draw => r.Draw.state
  | Op.endFrame => r.EndFrame.state

/-- The renderer after a finite sequence of calls. -/
def FilamentRenderer.run (r : FilamentRenderer) (ops : List Op) : FilamentRenderer :=
  ops.foldl FilamentRenderer.step r

/-! ## Example states -/

/-- A renderer with two scenes in the general collection, a GUI scene, a modifier that
still holds an instance from an earlier call, and a frame active. -/
def exampleRenderer : FilamentRenderer :=
  { scenes_ := (SceneMap.empty.assign ⟨1⟩ ⟨10⟩).assign ⟨2⟩ ⟨20⟩
    guiScene_ := some ⟨30⟩
    materialsModifier_ := { materialInstance_ := some ⟨7⟩, currentHandle_ := ⟨4⟩ }
    frameStarted_ := true }

/-- A resource manager whose state is a counter: it knows material instance 1 only,
cannot instantiate material 0, and hands out the counter as texture handle. -/
def exampleResourceManager : FilamentResourceManager Nat :=
  { CreateMaterial := fun _ n => (⟨n + 1⟩, n + 1)
    CreateMaterialInstance := fun id n => if id.id = 0 then (⟨0⟩, n) else (⟨1⟩, n + 1)
    GetMaterialInstance := fun id _ => if id.id = 1 then some ⟨7⟩ else none
    CreateTexture := fun _ n => (⟨n + 1⟩, n + 1) }

theorem SceneEntries.find_assign (l : SceneEntries) (k : SceneHandle) (v : FilamentScene)
    (x : SceneHandle) :
    SceneEntries.find (SceneEntries.assign l k v) x =
      if x = k then some v else SceneEntries.find l x := by
  induction l with
  | nil =>
    by_cases hx : x = k
    · simp [SceneEntries.assign, SceneEntries.find, hx]
    · have hx2 : ¬ k = x := fun e => hx e.symm
      simp [SceneEntries.assign, SceneEntries.find, hx, hx2]
  | cons p rest ih =>
    obtain ⟨k0, v0⟩ := p
    by_cases hk : k0 = k
    · subst hk
      by_cases hx : x = k0
      · subst hx
        simp [SceneEntries.assign, SceneEntries.find]
      · have hx2 : ¬ k0 = x := fun e => hx e.symm
        simp [SceneEntries.assign, SceneEntries.find, hx, hx2]
    · by_cases hx : k0 = x
      · subst hx
        simp [SceneEntries.assign, SceneEntries.find, hk]
      · simp [SceneEntries.assign, SceneEntries.find, hk, hx, ih]

theorem SceneEntries.find_erase (l : SceneEntries) (k x : SceneHandle) :
    SceneEntries.find (SceneEntries.erase l k) x =
      if x = k then none else SceneEntries.find l x := by
  induction l with
  | nil => simp [SceneEntries.erase, SceneEntries.find]
  | cons p rest ih =>
    obtain ⟨k0, v0⟩ := p
    unfold SceneEntries.erase at ih ⊢
    by_cases hk : k0 = k
    · subst hk
      by_cases hx : x = k0
      · subst hx
        simpa [SceneEntries.find] using ih
      · have hx2 : ¬ k0 = x := fun e => hx e.symm
        simpa [SceneEntries.find, hx, hx2] using ih
    · by_cases hx : k0 = x
      · subst hx
        have hk2 : ¬ k0 = k := hk
        simp [SceneEntries.find, hk2]
      · simpa [SceneEntries.find, hk, hx] using ih

theorem SceneEntries.find_eq_none_iff (l : SceneEntries) (k : SceneHandle) :
    SceneEntries.find l k = none ↔ k ∉ l.map Prod.fst := by
  induction l with
  | nil => simp [SceneEntries.find]
  | cons p rest ih =>
    obtain ⟨k0, v0⟩ := p
    by_cases hk : k0 = k
    · subst hk
      simp [SceneEntries.find]
    · have hk2 : ¬ k = k0 := fun e => hk e.symm
      simp [SceneEntries.find, hk, hk2, ih]

theorem SceneEntries.erase_of_find_none (l : SceneEntries) (k : SceneHandle)
    (h : SceneEntries.find l k = none) : SceneEntries.erase l k = l := by
  rw [SceneEntries.find_eq_none_iff] at h
  unfold SceneEntries.erase
  rw [List.filter_eq_self]
  intro p hp
  have : p.1 ≠ k := by
    intro e
    exact h (e ▸ List.mem_map_of_mem Prod.fst hp)
  simpa using this

theorem SceneMap.eq_of_entries_eq (a b : SceneMap) (h : a.entries = b.entries) : a = b := by
  cases a
  cases b
  cases h
  rfl

theorem SceneMap.lookup_after_assign (m : SceneMap) (k : SceneHandle) (v : FilamentScene)
    (x : SceneHandle) :
    (m.assign k v).find x = if x = k then some v else m.find x :=
  SceneEntries.find_assign m.entries k v x

theorem SceneMap.lookup_after_erase (m : SceneMap) (k x : SceneHandle) :
    (m.erase k).find x = if x = k then none else m.find x :=
  SceneEntries.find_erase m.entries k x

theorem SceneMap.erase_unknown_key (m : SceneMap) (k : SceneHandle)
    (h : m.find k = none) : m.erase k = m :=
  SceneMap.eq_of_entries_eq _ _ (SceneEntries.erase_of_find_none m.entries k h)

theorem SceneMap.lookup_none_iff (m : SceneMap) (k : SceneHandle) :
    m.find k = none ↔ k ∉ m.keys :=
  SceneEntries.find_eq_none_iff m.entries k

theorem FilamentRenderer.GetScene_eq_find (id : SceneHandle) (r : FilamentRenderer) :
    r.GetScene id = r.scenes_.find id := by
  unfold FilamentRenderer.GetScene
  cases r.scenes_.find id <;> rfl

theorem SceneEntries.draws_by_key (f : FilamentScene → Call) (l : SceneEntries)
    (h : (l.map Prod.fst).Nodup) :
    (l.map Prod.fst).filterMap (fun id => (SceneEntries.find l id).map f)
      = l.map (fun pair => f pair.2) := by
  induction l with
  | nil => rfl
  | cons p rest ih =>
    obtain ⟨k0, v0⟩ := p
    rw [List.map_cons, List.nodup_cons] at h
    have hrest : (rest.map Prod.fst).filterMap
          (fun id => (SceneEntries.find ((k0, v0) :: rest) id).map f)
        = (rest.map Prod.fst).filterMap (fun id => (SceneEntries.find rest id).map f) := by
      apply List.filterMap_congr
      intro x hx
      have hne : ¬ k0 = x := fun e => h.1 (e ▸ hx)
      simp [SceneEntries.find, hne]
    have hhead : (SceneEntries.find ((k0, v0) :: rest) k0).map f = some (f v0) := by
      simp [SceneEntries.find]
    rw [List.map_cons, List.filterMap_cons, hhead, hrest, ih h.2, List.map_cons]

theorem FilamentRenderer.step_frameStarted (r : FilamentRenderer) (op : Op) :
    (r.step op).frameStarted_ =
      match op with
      | Op.beginFrame began => began
      | _ => r.frameStarted_ := by
  cases op with
  | createScene handle scene => rfl
  | getScene id => rfl
  | destroyScene id => rfl
  | convertToGuiScene id =>
    simp only [FilamentRenderer.step, FilamentRenderer.ConvertToGuiScene]
    cases r.scenes_.find id <;> rfl
  | beginFrame began => rfl
  | draw =>
    simp only [FilamentRenderer.step, FilamentRenderer.Draw]
    split <;> rfl
  | endFrame =>
    simp only [FilamentRenderer.step, FilamentRenderer.EndFrame]
    split <;> rfl

theorem FilamentRenderer.run_append (r : FilamentRenderer) (xs ys : List Op) :
    r.run (xs ++ ys) = (r.run xs).run ys := by
  simp [FilamentRenderer.run, List.foldl_append]

theorem FilamentRenderer.run_cons (r : FilamentRenderer) (op : Op) (ops : List Op) :
    r.run (op :: ops) = (r.step op).run ops := rfl

theorem FilamentRenderer.run_frameStarted_of_no_beginFrame (ops : List Op) :
    ∀ r : FilamentRenderer, (∀ began, Op.beginFrame began ∉ ops) →
      (r.run ops).frameStarted_ = r.frameStarted_ := by
  induction ops with
  | nil => intro r _; rfl
  | cons op rest ih =>
    intro r h
    rw [FilamentRenderer.run_cons, ih (r.step op) (fun b hb => h b (List.mem_cons_of_mem _ hb)),
      FilamentRenderer.step_frameStarted]
    cases op with
    | beginFrame began => exact absurd (List.mem_cons_self _ _) (h began)
    | createScene handle scene => rfl
    | getScene id => rfl
    | destroyScene id => rfl
    | convertToGuiScene id => rfl
    | draw => rfl
    | endFrame => rfl

theorem FilamentRenderer.step_find (r : FilamentRenderer) (op : Op) (id : SceneHandle) :
    ((r.step op).scenes_.find id).isSome = true ↔
      (∃ scene, op = Op.createScene id scene) ∨
      ((r.scenes_.find id).isSome = true ∧
        op ≠ Op.destroyScene id ∧ op ≠ Op.convertToGuiScene id) := by
  cases op with
  | createScene handle scene =>
    by_cases hh : id = handle
    · subst hh
      simp [FilamentRenderer.step, FilamentRenderer.CreateScene, SceneMap.lookup_after_assign]
    · have hh2 : ¬ handle = id := fun e => hh e.symm
      simp [FilamentRenderer.step, FilamentRenderer.CreateScene, SceneMap.lookup_after_assign,
        hh, hh2]
  | getScene other => simp [FilamentRenderer.step]
  | destroyScene other =>
    by_cases hh : id = other
    · subst hh
      simp [FilamentRenderer.step, FilamentRenderer.DestroyScene, SceneMap.lookup_after_erase]
    · have hh2 : ¬ other = id := fun e => hh e.symm
      simp [FilamentRenderer.step, FilamentRenderer.DestroyScene, SceneMap.lookup_after_erase,
        hh, hh2]
  | convertToGuiScene other =>
    by_cases hh : id = other
    · subst hh
      cases hf : r.scenes_.find id with
      | none => simp [FilamentRenderer.step, FilamentRenderer.ConvertToGuiScene, hf]
      | some found =>
        simp [FilamentRenderer.step, FilamentRenderer.ConvertToGuiScene, hf,
          SceneMap.lookup_after_erase]
    · have hh2 : ¬ other = id := fun e => hh e.symm
      cases hf : r.scenes_.find other with
      | none => simp [FilamentRenderer.step, FilamentRenderer.ConvertToGuiScene, hf, hh2]
      | some found =>
        simp [FilamentRenderer.step, FilamentRenderer.ConvertToGuiScene, hf,
          SceneMap.lookup_after_erase, hh, hh2]
  | beginFrame began => simp [FilamentRenderer.step, FilamentRenderer.BeginFrame]
  | draw =>
    have hs : r.Draw.state = r := by
      unfold FilamentRenderer.Draw
      split <;> rfl
    simp [FilamentRenderer.step, hs]
  | endFrame =>
    have hs : r.EndFrame.state = r := by
      unfold FilamentRenderer.EndFrame
      split <;> rfl
    simp [FilamentRenderer.step, hs]

theorem Op.createdAndKept_concat (id : SceneHandle) (ops : List Op) (op : Op) :
    (∃ before scene after, ops ++ [op] = before ++ Op.createScene id scene :: after ∧
        ∀ o ∈ after, o ≠ Op.destroyScene id ∧ o ≠ Op.convertToGuiScene id) ↔
      (∃ scene, op = Op.createScene id scene) ∨
      ((∃ before scene after, ops = before ++ Op.createScene id scene :: after ∧
        ∀ o ∈ after, o ≠ Op.destroyScene id ∧ o ≠ Op.convertToGuiScene id) ∧
        op ≠ Op.destroyScene id ∧ op ≠ Op.convertToGuiScene id) := by
  constructor
  · rintro ⟨before, scene, after, hsplit, hkept⟩
    rcases List.eq_nil_or_concat after with hnil | ⟨front, last, hlast⟩
    · subst hnil
      left
      have h1 : ops ++ [op] = before ++ [Op.createScene id scene] := hsplit
      exact ⟨scene, List.singleton_inj.1 (List.append_inj' h1 rfl).2⟩
    · right
      rw [List.concat_eq_append] at hlast
      subst hlast
      have h1 : ops ++ [op] = (before ++ Op.createScene id scene :: front) ++ [last] := by
        rw [hsplit]; simp
      have h2 := List.append_inj' h1 rfl
      have h3 : op = last := List.singleton_inj.1 h2.2
      refine ⟨⟨before, scene, front, h2.1, ?_⟩, ?_⟩
      · intro o ho
        exact hkept o (List.mem_append_left _ ho)
      · rw [h3]
        exact hkept last (by simp)
  · rintro (⟨scene, hop⟩ | ⟨⟨before, scene, after, hsplit, hkept⟩, hop⟩)
    · exact ⟨ops, scene, [], by rw [hop], by simp⟩
    · refine ⟨before, scene, after ++ [op], by rw [hsplit]; simp, ?_⟩
      intro o ho
      rcases List.mem_append.1 ho with h1 | h1
      · exact hkept o h1
      · rw [List.mem_singleton.1 h1]
        exact hop

theorem FilamentRenderer.run_find (r : FilamentRenderer) (id : SceneHandle) (ops : List Op) :
    ((r.run ops).scenes_.find id).isSome = true ↔
      (∃ before scene after, ops = before ++ Op.createScene id scene :: after ∧
        ∀ o ∈ after, o ≠ Op.destroyScene id ∧ o ≠ Op.convertToGuiScene id) ∨
      ((r.scenes_.find id).isSome = true ∧
        ∀ op ∈ ops, op ≠ Op.destroyScene id ∧ op ≠ Op.convertToGuiScene id) := by
  induction ops using List.reverseRecOn with
  | nil =>
    have hno : ¬ ∃ before scene after,
        ([] : List Op) = before ++ Op.createScene id scene :: after ∧
        ∀ o ∈ after, o ≠ Op.destroyScene id ∧ o ≠ Op.convertToGuiScene id := by
      rintro ⟨before, scene, after, hsplit, _⟩
      simp at hsplit
    simp only [FilamentRenderer.run, List.foldl_nil]
    constructor
    · intro h
      exact Or.inr ⟨h, fun _ ho => absurd ho (List.not_mem_nil _)⟩
    · rintro (h | h)
      · exact absurd h hno
      · exact h.1
  | append_singleton front op ih =>
    rw [FilamentRenderer.run_append]
    have hstep : (r.run front).run [op] = (r.run front).step op := rfl
    rw [hstep, FilamentRenderer.step_find, ih, Op.createdAndKept_concat]
    constructor
    · rintro (h | ⟨h | ⟨h0, hall⟩, hop⟩)
      · exact Or.inl (Or.inl h)
      · exact Or.inl (Or.inr ⟨h, hop⟩)
      · refine Or.inr ⟨h0, ?_⟩
        intro o ho
        rcases List.mem_append.1 ho with h1 | h1
        · exact hall o h1
        · rw [List.mem_singleton.1 h1]
          exact hop
    · rintro ((h | ⟨h, hop⟩) | ⟨h0, hall⟩)
      · exact Or.inl h
      · exact Or.inr ⟨Or.inl h, hop⟩
      · exact Or.inr ⟨Or.inr ⟨h0, fun o ho => hall o (List.mem_append_left _ ho)⟩,
          hall op (by simp)⟩

/-! ## Scene bookkeeping -/

/-- C1: for every renderer state, `GetScene` called with the handle that `CreateScene`
returned, right after that call, yields the scene that `CreateScene` just stored (so it is
not null). -/
theorem CreateScene_then_GetScene (r : FilamentRenderer) (handle : SceneHandle)
    (scene : FilamentScene) :
    (r.CreateScene handle scene).state.GetScene (r.CreateScene handle scene).ret
      = some scene := by
  rw [FilamentRenderer.GetScene_eq_find]
  simp [FilamentRenderer.CreateScene, SceneMap.lookup_after_assign]

/-- C3: for every renderer state and every scene handle, `GetScene` after `DestroyScene`
of that handle yields null. -/
theorem DestroyScene_then_GetScene (r : FilamentRenderer) (id : SceneHandle) :
    (r.DestroyScene id).state.GetScene id = none := by
  rw [FilamentRenderer.GetScene_eq_find]
  simp [FilamentRenderer.DestroyScene, SceneMap.lookup_after_erase]

/-- C2: if `id` names the scene `scene` in the general collection, then after
`ConvertToGuiScene(id)` the GUI slot holds `scene`, `id` is no key of the general
collection and `GetScene(id)` is null, every other handle still names what it named, and
with a frame active `Draw()` draws the scenes of the general collection and then `scene`
as the last call. -/
theorem ConvertToGuiScene_moves (r : FilamentRenderer) (id : SceneHandle)
    (scene : FilamentScene) (h : r.GetScene id = some scene) :
    (r.ConvertToGuiScene id).state.guiScene_ = some scene ∧
    id ∉ (r.ConvertToGuiScene id).state.scenes_.keys ∧
    (r.ConvertToGuiScene id).state.GetScene id = none ∧
    (∀ other, other ≠ id → (r.ConvertToGuiScene id).state.GetScene other = r.GetScene other) ∧
    ((r.ConvertToGuiScene id).state.frameStarted_ = true →
      (r.ConvertToGuiScene id).state.Draw.calls =
        (r.ConvertToGuiScene id).state.scenes_.values.map Call.sceneDraw
          ++ [Call.sceneDraw scene]) := by
  rw [FilamentRenderer.GetScene_eq_find] at h
  have hstate : (r.ConvertToGuiScene id).state =
      { r with guiScene_ := some scene, scenes_ := r.scenes_.erase id } := by
    simp [FilamentRenderer.ConvertToGuiScene, h]
  rw [hstate]
  have hnone : (r.scenes_.erase id).find id = none := by simp [SceneMap.lookup_after_erase]
  refine ⟨rfl, ?_, ?_, ?_, ?_⟩
  · exact (SceneMap.lookup_none_iff _ _).1 hnone
  · rw [FilamentRenderer.GetScene_eq_find]
    exact hnone
  · intro other hne
    rw [FilamentRenderer.GetScene_eq_find, FilamentRenderer.GetScene_eq_find]
    simp [SceneMap.lookup_after_erase, hne]
  · intro hf
    simp only at hf
    simp [FilamentRenderer.Draw, hf, SceneMap.values]

/-- Witness for C2 on the example renderer and its handle 1. -/
theorem ConvertToGuiScene_moves_witness :
    exampleRenderer.GetScene ⟨1⟩ = some ⟨10⟩ ∧
    (exampleRenderer.ConvertToGuiScene ⟨1⟩).state.frameStarted_ = true ∧
    (exampleRenderer.ConvertToGuiScene ⟨1⟩).state.guiScene_ = some ⟨10⟩ ∧
    (exampleRenderer.ConvertToGuiScene ⟨1⟩).state.GetScene ⟨1⟩ = none ∧
    (exampleRenderer.ConvertToGuiScene ⟨1⟩).state.Draw.calls =
      (exampleRenderer.ConvertToGuiScene ⟨1⟩).state.scenes_.values.map Call.sceneDraw
        ++ [Call.sceneDraw ⟨10⟩] :=
  ⟨by decide, by decide,
    (ConvertToGuiScene_moves exampleRenderer ⟨1⟩ ⟨10⟩ (by decide)).1,
    (ConvertToGuiScene_moves exampleRenderer ⟨1⟩ ⟨10⟩ (by decide)).2.2.1,
    (ConvertToGuiScene_moves exampleRenderer ⟨1⟩ ⟨10⟩ (by decide)).2.2.2.2 (by decide)⟩

/-- C8: if `id` is no key of the general collection, `DestroyScene(id)` and
`ConvertToGuiScene(id)` each leave the whole renderer state as it was and call nothing.
In particular, after any `ConvertToGuiScene(id)`, another `DestroyScene(id)` or
`ConvertToGuiScene(id)` leaves the state, the GUI slot included, as it is. -/
theorem unknown_handle_no_effect (r : FilamentRenderer) (id : SceneHandle)
    (h : id ∉ r.scenes_.keys) :
    r.DestroyScene id = { ret := (), state := r, calls := [] } ∧
    r.ConvertToGuiScene id = { ret := (), state := r, calls := [] } ∧
    (∀ r0 : FilamentRenderer,
      ((r0.ConvertToGuiScene id).state.DestroyScene id).state
          = (r0.ConvertToGuiScene id).state ∧
      ((r0.ConvertToGuiScene id).state.ConvertToGuiScene id).state
          = (r0.ConvertToGuiScene id).state) := by
  have key : ∀ q : FilamentRenderer, q.scenes_.find id = none →
      q.DestroyScene id = { ret := (), state := q, calls := [] } ∧
      q.ConvertToGuiScene id = { ret := (), state := q, calls := [] } := by
    intro q hq
    constructor
    · simp [FilamentRenderer.DestroyScene, hq, SceneMap.erase_unknown_key]
    · simp [FilamentRenderer.ConvertToGuiScene, hq]
  have hnone : r.scenes_.find id = none := (SceneMap.lookup_none_iff _ _).2 h
  refine ⟨(key r hnone).1, (key r hnone).2, ?_⟩
  intro r0
  have h0 : (r0.ConvertToGuiScene id).state.scenes_.find id = none := by
    cases hf : r0.scenes_.find id with
    | none => simp [FilamentRenderer.ConvertToGuiScene, hf]
    | some found => simp [FilamentRenderer.ConvertToGuiScene, hf, SceneMap.lookup_after_erase]
  have h1 := key _ h0
  exact ⟨by rw [h1.1], by rw [h1.2]⟩

/-- Witness for C8 on the example renderer and the handle 5, which it does not hold. -/
theorem unknown_handle_no_effect_witness :
    (⟨5⟩ : SceneHandle) ∉ exampleRenderer.scenes_.keys ∧
    exampleRenderer.DestroyScene ⟨5⟩ = { ret := (), state := exampleRenderer, calls := [] } ∧
    exampleRenderer.ConvertToGuiScene ⟨5⟩
      = { ret := (), state := exampleRenderer, calls := [] } :=
  ⟨by decide,
    (unknown_handle_no_effect exampleRenderer ⟨5⟩ (by decide)).1,
    (unknown_handle_no_effect exampleRenderer ⟨5⟩ (by decide)).2.1⟩

/-! ## Frame sequencing -/

/-- C4: with a frame active, `Draw()` makes one draw call per entry of the general
collection (the keys are pairwise different, so one per handle, on the scene stored under
it), then one on the GUI scene if there is one, and nothing else; the renderer state is
left as it was. -/
theorem Draw_with_frame (r : FilamentRenderer) (h : r.frameStarted_ = true) :
    r.Draw.calls = r.scenes_.values.map Call.sceneDraw
      ++ r.guiScene_.toList.map Call.sceneDraw ∧
    r.Draw.calls = r.scenes_.keys.filterMap (fun id => (r.GetScene id).map Call.sceneDraw)
      ++ r.guiScene_.toList.map Call.sceneDraw ∧
    r.scenes_.keys.Nodup ∧
    r.Draw.state = r := by
  have hcalls : r.Draw.calls = r.scenes_.values.map Call.sceneDraw
      ++ r.guiScene_.toList.map Call.sceneDraw := by
    simp only [FilamentRenderer.Draw, h, if_true, SceneMap.values, List.map_map]
    cases r.guiScene_ <;> rfl
  refine ⟨hcalls, ?_, r.scenes_.nodupKeys, ?_⟩
  · rw [hcalls]
    congr 1
    have hk := SceneEntries.draws_by_key Call.sceneDraw r.scenes_.entries r.scenes_.nodupKeys
    simp only [FilamentRenderer.GetScene_eq_find, SceneMap.keys, SceneMap.find,
      SceneMap.values, List.map_map]
    rw [hk]
    rfl
  · simp [FilamentRenderer.Draw, h]

/-- Witness for C4 on the example renderer, which has a frame active. -/
theorem Draw_with_frame_witness :
    exampleRenderer.frameStarted_ = true ∧
    exampleRenderer.Draw.calls = exampleRenderer.scenes_.values.map Call.sceneDraw
      ++ exampleRenderer.guiScene_.toList.map Call.sceneDraw ∧
    exampleRenderer.Draw.state = exampleRenderer :=
  ⟨rfl, (Draw_with_frame exampleRenderer rfl).1, (Draw_with_frame exampleRenderer rfl).2.2.2⟩

/-- C5: when no frame is active, that is, starting from a state without a frame active no
`BeginFrame` was called, or the most recent `BeginFrame` reported failure, `Draw()` and
`EndFrame()` call nothing (no scene is drawn, the low-level renderer is not asked to end a
frame) and leave the renderer state as it was. With `r0` the freshly constructed renderer
this is the case after construction; with the empty call sequence it is the case of any
state whose frame flag is down. -/
theorem Draw_EndFrame_without_frame (r0 : FilamentRenderer) (ops : List Op)
    (h : (r0.frameStarted_ = false ∧ ∀ began, Op.beginFrame began ∉ ops) ∨
      (∃ before after, ops = before ++ Op.beginFrame false :: after ∧
        ∀ began, Op.beginFrame began ∉ after)) :
    (r0.run ops).frameStarted_ = false ∧
    (r0.run ops).Draw = { ret := (), state := r0.run ops, calls := [] } ∧
    (r0.run ops).EndFrame = { ret := (), state := r0.run ops, calls := [] } := by
  have hflag : (r0.run ops).frameStarted_ = false := by
    rcases h with ⟨h0, hno⟩ | ⟨before, after, hsplit, hno⟩
    · rw [FilamentRenderer.run_frameStarted_of_no_beginFrame ops r0 hno, h0]
    · rw [hsplit, FilamentRenderer.run_append, FilamentRenderer.run_cons,
        FilamentRenderer.run_frameStarted_of_no_beginFrame after _ hno,
        FilamentRenderer.step_frameStarted]
  refine ⟨hflag, ?_, ?_⟩
  · simp [FilamentRenderer.Draw, hflag]
  · simp [FilamentRenderer.EndFrame, hflag]

/-- Witness for C5: a fresh renderer on which the second `BeginFrame` failed. -/
theorem Draw_EndFrame_without_frame_witness :
    (FilamentRenderer.new.run [Op.createScene ⟨1⟩ ⟨10⟩, Op.beginFrame true, Op.draw,
        Op.endFrame, Op.beginFrame false]).Draw.calls = [] ∧
    (FilamentRenderer.new.run [Op.createScene ⟨1⟩ ⟨10⟩, Op.beginFrame true, Op.draw,
        Op.endFrame, Op.beginFrame false]).EndFrame.calls = [] :=
  have h := Draw_EndFrame_without_frame FilamentRenderer.new
    [Op.createScene ⟨1⟩ ⟨10⟩, Op.beginFrame true, Op.draw, Op.endFrame, Op.beginFrame false]
    (Or.inr ⟨[Op.createScene ⟨1⟩ ⟨10⟩, Op.beginFrame true, Op.draw, Op.endFrame], [],
      rfl, by decide⟩)
  ⟨by rw [h.2.1], by rw [h.2.2]⟩

/-- C6, as stated, fails: on a fresh renderer with one scene, after a successful
`BeginFrame` and an `EndFrame` the frame flag is still up, `Draw()` draws the scene and a
second `EndFrame()` asks the low-level renderer to end a frame again. -/
theorem EndFrame_keeps_frame_active_example :
    (FilamentRenderer.new.run [Op.createScene ⟨1⟩ ⟨10⟩, Op.beginFrame true]).frameStarted_
      = true ∧
    (FilamentRenderer.new.run [Op.createScene ⟨1⟩ ⟨10⟩, Op.beginFrame true,
      Op.endFrame]).frameStarted_ = true ∧
    (FilamentRenderer.new.run [Op.createScene ⟨1⟩ ⟨10⟩, Op.beginFrame true,
      Op.endFrame]).Draw.calls = [Call.sceneDraw ⟨10⟩] ∧
    (FilamentRenderer.new.run [Op.createScene ⟨1⟩ ⟨10⟩, Op.beginFrame true,
      Op.endFrame]).EndFrame.calls = [Call.rendererEndFrame] := by
  decide

/-- C6, amended: the frame flag is what the most recent `BeginFrame` reported, and
`EndFrame()` does not lower it. From every state, `BeginFrame` calls the low-level
renderer and leaves the flag at what it reported (up on success, down on failure) and the
rest of the state as it was. For every state with a frame active, `EndFrame()` asks the
low-level renderer to end the frame and leaves the renderer state, frame flag included, as
it was; a `Draw()` issued after it draws every scene of the general collection and then
the GUI scene, and a second `EndFrame()` ends a frame again. No member function other than
`BeginFrame` changes the flag, so it stays up through any sequence of scene and frame calls
without a `BeginFrame`. -/
theorem EndFrame_keeps_frame_active (r : FilamentRenderer) (h : r.frameStarted_ = true) :
    r.EndFrame = { ret := (), state := r, calls := [Call.rendererEndFrame] } ∧
    r.EndFrame.state.frameStarted_ = true ∧
    r.EndFrame.state.Draw.calls = r.scenes_.values.map Call.sceneDraw
      ++ r.guiScene_.toList.map Call.sceneDraw ∧
    r.EndFrame.state.EndFrame.calls = [Call.rendererEndFrame] ∧
    (∀ (q : FilamentRenderer) (began : Bool),
      q.BeginFrame began =
        { ret := ()
          state := { q with frameStarted_ := began }
          calls := [Call.rendererBeginFrame] } ∧
      (q.BeginFrame began).state.frameStarted_ = began) ∧
    (∀ ops : List Op, (∀ began, Op.beginFrame began ∉ ops) →
      (r.run ops).frameStarted_ = true) ∧
    (∀ (q : FilamentRenderer) (id : SceneHandle) (scene : FilamentScene),
      (q.CreateScene id scene).state.frameStarted_ = q.frameStarted_ ∧
      (q.DestroyScene id).state.frameStarted_ = q.frameStarted_ ∧
      (q.ConvertToGuiScene id).state.frameStarted_ = q.frameStarted_ ∧
      q.Draw.state.frameStarted_ = q.frameStarted_ ∧
      q.EndFrame.state.frameStarted_ = q.frameStarted_ ∧
      (q.RemoveTexture id).state.frameStarted_ = q.frameStarted_) ∧
    (∀ (σ : Type) (rm : FilamentResourceManager σ) (s : σ) (q : FilamentRenderer)
        (request : ResourceLoadRequest) (id : REHandle),
      (q.AddMaterial rm request s).state.frameStarted_ = q.frameStarted_ ∧
      (q.ModifyMaterial rm id s).state.frameStarted_ = q.frameStarted_ ∧
      (q.ModifyMaterialInstance rm id s).state.frameStarted_ = q.frameStarted_ ∧
      (q.AddTexture rm request s).state.frameStarted_ = q.frameStarted_) := by
  have he : r.EndFrame = { ret := (), state := r, calls := [Call.rendererEndFrame] } := by
    simp [FilamentRenderer.EndFrame, h]
  refine ⟨he, ?_, ?_, ?_, ?_, ?_, ?_, ?_⟩
  · rw [he]; exact h
  · rw [he]
    simp only [FilamentRenderer.Draw, h, if_true, SceneMap.values, List.map_map]
    cases r.guiScene_ <;> rfl
  · rw [he]; simp [FilamentRenderer.EndFrame, h]
  · intro q began
    exact ⟨rfl, rfl⟩
  · intro ops hno
    rw [FilamentRenderer.run_frameStarted_of_no_beginFrame ops r hno, h]
  · intro q id scene
    refine ⟨rfl, rfl, ?_, ?_, ?_, rfl⟩
    · exact FilamentRenderer.step_frameStarted q (Op.convertToGuiScene id)
    · exact FilamentRenderer.step_frameStarted q Op.draw
    · exact FilamentRenderer.step_frameStarted q Op.endFrame
  · intro σ rm s q request id
    refine ⟨rfl, ?_, ?_, ?_⟩
    · unfold FilamentRenderer.ModifyMaterial
      simp only
      split <;> rfl
    · unfold FilamentRenderer.ModifyMaterialInstance
      simp only
      split <;> rfl
    · unfold FilamentRenderer.AddTexture
      split <;> rfl

/-- Witness for amended C6 on the example renderer. -/
theorem EndFrame_keeps_frame_active_witness :
    exampleRenderer.frameStarted_ = true ∧
    exampleRenderer.EndFrame.state.frameStarted_ = true ∧
    exampleRenderer.EndFrame.state.EndFrame.calls = [Call.rendererEndFrame] ∧
    (FilamentRenderer.new.BeginFrame true).state.frameStarted_ = true :=
  ⟨rfl, (EndFrame_keeps_frame_active exampleRenderer rfl).2.1,
    (EndFrame_keeps_frame_active exampleRenderer rfl).2.2.2.1,
    ((EndFrame_keeps_frame_active exampleRenderer rfl).2.2.2.2.1
      FilamentRenderer.new true).2⟩

/-! ## Resource requests -/

/-- C9: when the resource manager does not know the material-instance handle (its lookup
yields an expired reference), `ModifyMaterial(instanceHandle)` resets the shared modifier,
looks the handle up, logs an error and returns the modifier as `Reset` left it: holding no
instance, whatever it held before; `InitWithMaterialInstance` is not called. The same holds
for `ModifyMaterial(materialHandle)` when the resource manager returns an invalid instance
handle. -/
theorem ModifyMaterial_failure {σ : Type} (rm : FilamentResourceManager σ) (s : σ)
    (r : FilamentRenderer) :
    (∀ id : MaterialInstanceHandle, rm.GetMaterialInstance id s = none →
      (r.ModifyMaterialInstance rm id s).calls = [Call.modifierReset,
        Call.rmGetMaterialInstance id,
        Call.logError "Failed to modify material instance: unknown instance handle \x7b\x7d." id] ∧
      (∀ mi h, Call.modifierInit mi h ∉ (r.ModifyMaterialInstance rm id s).calls) ∧
      (r.ModifyMaterialInstance rm id s).ret = r.materialsModifier_.Reset ∧
      (r.ModifyMaterialInstance rm id s).ret
        = { materialInstance_ := none, currentHandle_ := REHandle.kBad } ∧
      (r.ModifyMaterialInstance rm id s).state.materialsModifier_
        = (r.ModifyMaterialInstance rm id s).ret) ∧
    (∀ id : MaterialHandle, (rm.CreateMaterialInstance id s).1.isValid = false →
      (r.ModifyMaterial rm id s).calls = [Call.modifierReset,
        Call.rmCreateMaterialInstance id,
        Call.logError "Failed to create material instance for material handle \x7b\x7d." id] ∧
      (∀ mi h, Call.modifierInit mi h ∉ (r.ModifyMaterial rm id s).calls) ∧
      (r.ModifyMaterial rm id s).ret = r.materialsModifier_.Reset ∧
      (r.ModifyMaterial rm id s).ret
        = { materialInstance_ := none, currentHandle_ := REHandle.kBad } ∧
      (r.ModifyMaterial rm id s).state.materialsModifier_
        = (r.ModifyMaterial rm id s).ret) := by
  constructor
  · intro id hid
    simp [FilamentRenderer.ModifyMaterialInstance, hid, FilamentMaterialModifier.Reset]
  · intro id hid
    simp [FilamentRenderer.ModifyMaterial, hid, FilamentMaterialModifier.Reset]

/-- Witness for C9: the example renderer, whose modifier holds an instance from an earlier
call, with the unknown instance handle 9 and with the material handle 0. -/
theorem ModifyMaterial_failure_witness :
    exampleRenderer.materialsModifier_.materialInstance_ = some ⟨7⟩ ∧
    exampleResourceManager.GetMaterialInstance ⟨9⟩ 0 = none ∧
    (exampleResourceManager.CreateMaterialInstance ⟨0⟩ 0).1.isValid = false ∧
    (exampleRenderer.ModifyMaterialInstance exampleResourceManager ⟨9⟩ 0).ret
      = { materialInstance_ := none, currentHandle_ := REHandle.kBad } ∧
    (exampleRenderer.ModifyMaterial exampleResourceManager ⟨0⟩ 0).ret
      = { materialInstance_ := none, currentHandle_ := REHandle.kBad } :=
  ⟨rfl, rfl, rfl,
    ((ModifyMaterial_failure exampleResourceManager 0 exampleRenderer).1 ⟨9⟩ rfl).2.2.2.1,
    ((ModifyMaterial_failure exampleResourceManager 0 exampleRenderer).2 ⟨0⟩ rfl).2.2.2.1⟩

/-! ## Which handles name a scene -/

/-- C10: after any finite sequence of `CreateScene`, `GetScene`, `DestroyScene`,
`ConvertToGuiScene`, `BeginFrame`, `Draw` and `EndFrame` calls on a freshly constructed
renderer, `GetScene(id)` is not null exactly when some earlier `CreateScene` returned `id`
and `id` was not passed to `DestroyScene` or `ConvertToGuiScene` after it. So a handle that
no `CreateScene` returned yields null, and a handle that was returned and not given up
yields a scene (whether or not handle allocation repeats handles). `GetScene` leaves the
renderer state as it is. -/
theorem GetScene_after_calls (ops : List Op) (id : SceneHandle) :
    ((FilamentRenderer.new.run ops).GetScene id ≠ none ↔
      ∃ before scene after, ops = before ++ Op.createScene id scene :: after ∧
        ∀ op ∈ after, op ≠ Op.destroyScene id ∧ op ≠ Op.convertToGuiScene id) ∧
    (∀ (r : FilamentRenderer) (other : SceneHandle), r.step (Op.getScene other) = r) := by
  refine ⟨?_, fun _ _ => rfl⟩
  have h := FilamentRenderer.run_find FilamentRenderer.new id ops
  have h0 : (FilamentRenderer.new.scenes_.find id).isSome = false := rfl
  rw [h0] at h
  rw [FilamentRenderer.GetScene_eq_find, ← Option.isSome_iff_ne_none, h]
  constructor
  · rintro (h1 | h1)
    · exact h1
    · exact absurd h1.1 (by simp)
  · intro h1
    exact Or.inl h1

end open3d.visualization
